import Mathlib

/-!
Verification of the srsue LTE stack orchestration core
(`src/srsue/src/stack/ue_stack_lte.cc`): the tick handler, the boundary
adapters, the lifecycle manager (init / stop / switch_off) and the pcap
trace setup, embedded shallowly as pure Lean functions over explicit
state records and event traces.
-/

namespace UeStackLte

/-! ## Definitions -/

/-- Return code for success (`SRSRAN_SUCCESS` in the source). -/
def SRSRAN_SUCCESS : Int := 0

/-- Return code for failure (`SRSRAN_ERROR` in the source). -/
def SRSRAN_ERROR : Int := -1

/-- The modulus of `uint32_t` arithmetic. -/
def U32 : Nat := 4294967296

/-- Modelled from the spec: the wrapping TTI space has 10240 subframes and
`TTI_SUB(a, b)` computes `a - b` wrapped into that space.  The macro itself
(`((a) + 10240 - (b)) % 10240`, evaluated over `uint32_t`) lives in a
repository header that is not included under `src/`.  Arguments stand for
`uint32_t` values; the inner `% U32` reproduces the unsigned wrap-around of
the C expression `a + 10240 - b`. -/
def TTI_SUB (a b : Nat) : Nat :=
  ((a % U32 + 10240 + (U32 - b % U32)) % U32) % 10240

/-! ### Tick handler (`ue_stack_lte::run_tti_impl`, lines 410-444) -/

/-- One observable action performed by `run_tti_impl` on the protocol layers
and the timer registry. -/
inductive TtiEvent where
  | macRunTti (tti : Nat)
  | macNrRunTti (tti : Nat)
  | tic
  | rrcRunTti
  | rrcNrRunTti (tti : Nat)
  | nasRunTti
  deriving DecidableEq, Repr

/-- The body of one iteration of the per-subframe loop in `run_tti_impl`:
`uint32_t next_tti = TTI_SUB(tti, (tti_jump - i - 1)); mac.run_tti(next_tti);
mac_nr.run_tti(next_tti); task_sched.tic();`. -/
def ttiLoopBody (tti tti_jump i : Nat) : List TtiEvent :=
  [.macRunTti (TTI_SUB tti (tti_jump - i - 1)),
   .macNrRunTti (TTI_SUB tti (tti_jump - i - 1)),
   .tic]

/-- The `for (uint32_t i = 0; i < tti_jump; ++i)` loop of `run_tti_impl`. -/
def ttiLoop (tti tti_jump : Nat) : List TtiEvent :=
  (List.range tti_jump).flatMap (ttiLoopBody tti tti_jump)

/-- `ue_stack_lte::run_tti_impl`: the per-subframe loop followed by exactly
one run of each upper layer (`rrc.run_tti(); rrc_nr.run_tti(tti);
nas.run_tti();`). -/
def run_tti_impl (tti tti_jump : Nat) : List TtiEvent :=
  ttiLoop tti tti_jump ++ [.rrcRunTti, .rrcNrRunTti tti, .nasRunTti]

/-- Recognises a timer-registry advance (`task_sched.tic()`). -/
def isTic : TtiEvent → Bool
  | .tic => true
  | _ => false

/-- Extracts the subframe argument of a `mac.run_tti` invocation. -/
def macArg : TtiEvent → Option Nat
  | .macRunTti n => some n
  | _ => none

/-- Extracts the subframe argument of a `mac_nr.run_tti` invocation. -/
def macNrArg : TtiEvent → Option Nat
  | .macNrRunTti n => some n
  | _ => none

/-- The subframes handed to `mac.run_tti`, in invocation order. -/
def macSubframes (tti tti_jump : Nat) : List Nat :=
  (run_tti_impl tti tti_jump).filterMap macArg

/-- The subframes handed to `mac_nr.run_tti`, in invocation order. -/
def macNrSubframes (tti tti_jump : Nat) : List Nat :=
  (run_tti_impl tti tti_jump).filterMap macNrArg

/-- The lockstep contract of one `run_tti_impl(tti = T, tti_jump = J)`
invocation: the subframes handed to `mac.run_tti` are exactly
`TTI_SUB(T, J-1), …, TTI_SUB(T, 0)` (that is, `T-J+1, …, T` in the wrapping
TTI space), `mac_nr.run_tti` sees the same sequence, the timer registry
advances exactly `J` times, consecutive subframes are wrapping successors and
pairwise distinct, the last subframe is `T`, and after the loop the upper
layers run exactly once each with `rrc_nr.run_tti` receiving only `T`. -/
def TickLockstepSpec (T J : Nat) : Prop :=
  macSubframes T J = (List.range J).map (fun i => TTI_SUB T (J - i - 1))
  ∧ macNrSubframes T J = macSubframes T J
  ∧ ((run_tti_impl T J).filter isTic).length = J
  ∧ (∀ i, i < J →
      (macSubframes T J).getD i 0 = (T + 10240 - (J - 1 - i)) % 10240)
  ∧ (∀ i, i + 1 < J →
      (macSubframes T J).getD (i + 1) 0
        = ((macSubframes T J).getD i 0 + 1) % 10240)
  ∧ (∀ i j, i < J → j < J → i ≠ j →
      (macSubframes T J).getD i 0 ≠ (macSubframes T J).getD j 0)
  ∧ (macSubframes T J).getD (J - 1) 0 = T
  ∧ (run_tti_impl T J).drop (3 * J)
      = [TtiEvent.rrcRunTti, TtiEvent.rrcNrRunTti T, TtiEvent.nasRunTti]
  ∧ (∀ x, TtiEvent.rrcNrRunTti x ∈ run_tti_impl T J → x = T)

/-! ### Pcap configuration (`init`, lines 124-192) -/

/-- One pcap trace option of `stack_args_t::pkt_trace`: an enable flag and a
destination filename. -/
structure PcapArgs where
  enable : Bool
  filename : String
  deriving DecidableEq, Repr

/-- The `pkt_trace` arguments: MAC, MAC-NR and NAS trace options.  The raw
comma-separated `enable` string is modelled as the list of tokens it parses
to (the splitting routine `string_parse_list` is library code outside
`src/`). -/
structure PktTraceArgs where
  mac_pcap : PcapArgs
  mac_nr_pcap : PcapArgs
  nas_pcap : PcapArgs
  deriving DecidableEq, Repr

/-- C `isspace`: space, \t, \n, vertical tab, form feed, \r. -/
def isCSpace (c : Char) : Bool :=
  c == ' ' || c == '\t' || c == '\n' || c == Char.ofNat 11 ||
    c == Char.ofNat 12 || c == '\r'

/-- `pcap.erase(std::remove_if(pcap.begin(), pcap.end(), isspace),
pcap.end())`: drop all whitespace characters. -/
def stripSpaces (s : String) : String :=
  String.mk (s.data.filter (fun c => !isCSpace c))

/-- One iteration of the option loop in `init` (lines 135-151).  Note that
the `"none"`/`"NONE"` branch assigns `args.pkt_trace.mac_nr_pcap.enable =
false` twice (lines 146-147, a duplicated line) and never touches
`nas_pcap.enable`; the duplicate assignment is idempotent so it is modelled
as one update. -/
def applyPcapOption (pt : PktTraceArgs) (pcap0 : String) : PktTraceArgs :=
  let pcap := stripSpaces pcap0
  if pcap == "mac" || pcap == "MAC" then
    { pt with mac_pcap := { pt.mac_pcap with enable := true } }
  else if pcap == "mac_nr" || pcap == "MAC_NR" then
    { pt with mac_nr_pcap := { pt.mac_nr_pcap with enable := true } }
  else if pcap == "nas" || pcap == "NAS" then
    { pt with nas_pcap := { pt.nas_pcap with enable := true } }
  else if pcap == "none" || pcap == "NONE" then
    { pt with mac_pcap := { pt.mac_pcap with enable := false },
              mac_nr_pcap := { pt.mac_nr_pcap with enable := false } }
  else
    pt

/-- The pcap list parsing of `init` (lines 126-151): on an empty token list
it disables `mac_pcap` and (twice, lines 131-132) `mac_nr_pcap` — but not
`nas_pcap` — and then the option loop runs over the tokens. -/
def parsePcapList (pt0 : PktTraceArgs) (pcap_list : List String) :
    PktTraceArgs :=
  let pt :=
    if pcap_list.isEmpty then
      { pt0 with mac_pcap := { pt0.mac_pcap with enable := false },
                 mac_nr_pcap := { pt0.mac_nr_pcap with enable := false } }
    else pt0
  pcap_list.foldl applyPcapOption pt

/-- The three pcap writer members of `ue_stack_lte`. -/
inductive PcapSink where
  | mac_pcap
  | mac_nr_pcap
  | nas_pcap
  deriving DecidableEq, Repr

/-- The protocol-layer members of `ue_stack_lte`. -/
inductive Layer where
  | usim
  | nas
  | rrc
  | rlc
  | pdcp
  | mac
  | mac_nr
  | rrc_nr
  deriving DecidableEq, Repr

/-- One observable action performed by `init`. -/
inductive InitEvent where
  | pcapOpen (sink : PcapSink) (filename : String)
  | startPcap (layer : Layer) (sink : PcapSink)
  | usimInit
  | layerInit (layer : Layer)
  | setRunningTrue
  | startThread
  deriving DecidableEq, Repr

/-- The pcap sink setup of `init` (lines 153-192): when both MAC traces are
enabled with identical filenames one writer (`mac_pcap`) is opened and both
`mac.start_pcap` and `mac_nr.start_pcap` point at it; otherwise each enabled
MAC trace opens its own writer; the NAS trace always opens its own writer.
`openOk` tells whether a given writer's `open` call returned
`SRSRAN_SUCCESS`; on failure the layer is not pointed at the writer (only an
error is logged). -/
def setupPcap (pt : PktTraceArgs) (openOk : PcapSink → Bool) :
    List InitEvent :=
  (if pt.mac_pcap.enable && pt.mac_nr_pcap.enable
      && (pt.mac_pcap.filename == pt.mac_nr_pcap.filename) then
    [.pcapOpen .mac_pcap pt.mac_pcap.filename]
      ++ (if openOk .mac_pcap then
            [.startPcap .mac .mac_pcap, .startPcap .mac_nr .mac_pcap]
          else [])
  else
    (if pt.mac_pcap.enable then
      [.pcapOpen .mac_pcap pt.mac_pcap.filename]
        ++ (if openOk .mac_pcap then [.startPcap .mac .mac_pcap] else [])
    else [])
    ++ (if pt.mac_nr_pcap.enable then
      [.pcapOpen .mac_nr_pcap pt.mac_nr_pcap.filename]
        ++ (if openOk .mac_nr_pcap then [.startPcap .mac_nr .mac_nr_pcap]
            else [])
    else []))
  ++ (if pt.nas_pcap.enable then
    [.pcapOpen .nas_pcap pt.nas_pcap.filename]
      ++ (if openOk .nas_pcap then [.startPcap .nas .nas_pcap] else [])
  else [])

/-- Recognises a pcap-related `init` event. -/
def isPcapEvent : InitEvent → Bool
  | .pcapOpen _ _ => true
  | .startPcap _ _ => true
  | _ => false

/-- Extracts an open of one of the two MAC pcap writers. -/
def macOpenOf : InitEvent → Option (PcapSink × String)
  | .pcapOpen .mac_pcap f => some (.mac_pcap, f)
  | .pcapOpen .mac_nr_pcap f => some (.mac_nr_pcap, f)
  | _ => none

/-- Extracts the writer a MAC-family `start_pcap` call points its layer at. -/
def macStartOf : InitEvent → Option (Layer × PcapSink)
  | .startPcap .mac s => some (.mac, s)
  | .startPcap .mac_nr s => some (.mac_nr, s)
  | _ => none

/-- The opens of the two MAC pcap writers, in order. -/
def macOpens (evs : List InitEvent) : List (PcapSink × String) :=
  evs.filterMap macOpenOf

/-- The MAC-family `start_pcap` calls, in order. -/
def macStarts (evs : List InitEvent) : List (Layer × PcapSink) :=
  evs.filterMap macStartOf

/-- The shared-sink contract: exactly one MAC-family writer (`mac_pcap`)
is opened, for the common filename, and both `mac.start_pcap` and
`mac_nr.start_pcap` point at that one writer. -/
def SharedMacSinkSpec (pt : PktTraceArgs) (openOk : PcapSink → Bool) : Prop :=
  macOpens (setupPcap pt openOk) = [(PcapSink.mac_pcap, pt.mac_pcap.filename)]
  ∧ macStarts (setupPcap pt openOk)
      = [(Layer.mac, PcapSink.mac_pcap), (Layer.mac_nr, PcapSink.mac_pcap)]

/-- The separated-sink contract: each enabled MAC-family trace opens its own
writer and (when the open succeeds) points its own layer at it. -/
def SeparateMacSinkSpec (pt : PktTraceArgs) (openOk : PcapSink → Bool) :
    Prop :=
  macOpens (setupPcap pt openOk)
    = (if pt.mac_pcap.enable then
        [(PcapSink.mac_pcap, pt.mac_pcap.filename)] else [])
      ++ (if pt.mac_nr_pcap.enable then
        [(PcapSink.mac_nr_pcap, pt.mac_nr_pcap.filename)] else [])
  ∧ macStarts (setupPcap pt openOk)
      = (if pt.mac_pcap.enable && openOk PcapSink.mac_pcap then
          [(Layer.mac, PcapSink.mac_pcap)] else [])
        ++ (if pt.mac_nr_pcap.enable && openOk PcapSink.mac_nr_pcap then
          [(Layer.mac_nr, PcapSink.mac_nr_pcap)] else [])

/-- The NAS-trace-survives contract, for a configuration whose NAS trace
flag starts out `true`: no token list ever clears it (in particular neither
the empty list nor `["none"]`, which clear only the two MAC flags), and the
NAS pcap sink is consequently still opened by the trace setup. -/
def NasTraceSurvivesSpec (pt : PktTraceArgs) (openOk : PcapSink → Bool) :
    Prop :=
  (∀ l, (parsePcapList pt l).nas_pcap.enable = true)
  ∧ (parsePcapList pt []).mac_pcap.enable = false
  ∧ (parsePcapList pt []).mac_nr_pcap.enable = false
  ∧ (parsePcapList pt ["none"]).mac_pcap.enable = false
  ∧ (parsePcapList pt ["none"]).mac_nr_pcap.enable = false
  ∧ InitEvent.pcapOpen PcapSink.nas_pcap pt.nas_pcap.filename
      ∈ setupPcap (parsePcapList pt []) openOk
  ∧ InitEvent.pcapOpen PcapSink.nas_pcap pt.nas_pcap.filename
      ∈ setupPcap (parsePcapList pt ["none"]) openOk

/-- The outcome of `ue_stack_lte::init(const stack_args_t&)`. -/
structure InitOutcome where
  events : List InitEvent
  result : Int
  running : Bool
  deriving DecidableEq, Repr

/-- The order in which `init` wires the protocol layers (lines 205-213). -/
def layerInitOrder : List Layer :=
  [.mac, .rlc, .pdcp, .nas, .mac_nr, .rrc_nr, .rrc]

/-- `ue_stack_lte::init(const stack_args_t&)` (lines 96-219), after log
setup: parse the pcap option list, set up the trace sinks, run
`usim->init` (failure aborts with `SRSRAN_ERROR` before any protocol layer
is initialized, before `running = true` and before the stack thread is
started), then initialize the layers, set `running` and start the thread. -/
def init (pt0 : PktTraceArgs) (pcap_list : List String)
    (openOk : PcapSink → Bool) (usimInitOk : Bool) : InitOutcome :=
  if usimInitOk then
    { events := setupPcap (parsePcapList pt0 pcap_list) openOk
        ++ [.usimInit] ++ layerInitOrder.map .layerInit
        ++ [.setRunningTrue, .startThread],
      result := SRSRAN_SUCCESS, running := true }
  else
    { events := setupPcap (parsePcapList pt0 pcap_list) openOk
        ++ [.usimInit],
      result := SRSRAN_ERROR, running := false }

/-! ### Shutdown (`stop` lines 221-227, `stop_impl` lines 229-253) -/

/-- One observable action performed by the shutdown task `stop_impl`. -/
inductive StopEvent where
  | setRunningFalse
  | stopLayer (layer : Layer)
  | closePcap (sink : PcapSink)
  | taskSchedStop
  | backgroundWorkersStop
  deriving DecidableEq, Repr

/-- `ue_stack_lte::stop_impl`: flip `running` to `false`, stop `usim`,
`nas`, `rrc`, then `rlc`, `pdcp`, `mac`, close each enabled pcap writer,
then stop the task scheduler and the background worker pool. -/
def stop_impl (pt : PktTraceArgs) : List StopEvent :=
  [.setRunningFalse, .stopLayer .usim, .stopLayer .nas, .stopLayer .rrc,
   .stopLayer .rlc, .stopLayer .pdcp, .stopLayer .mac]
  ++ (if pt.mac_pcap.enable then [.closePcap .mac_pcap] else [])
  ++ (if pt.mac_nr_pcap.enable then [.closePcap .mac_nr_pcap] else [])
  ++ (if pt.nas_pcap.enable then [.closePcap .nas_pcap] else [])
  ++ [.taskSchedStop, .backgroundWorkersStop]

/-- Extracts the layer of a `stopLayer` event. -/
def stoppedLayer : StopEvent → Option Layer
  | .stopLayer l => some l
  | _ => none

/-! ### Boundary adapters (lines 255-302 and 343-408) -/

/-- A task closure captured by a boundary adapter and pushed onto one of the
four task queues. -/
inductive Task where
  | stopTask
  | nasSwitchOn
  | nasStartServiceRequest
  | pdcpWriteSdu (lcid : Nat)
  | rrcCellSearchComplete
  | rrcCellSelectComplete (status : Bool)
  | rrcSetConfigComplete (status : Bool)
  | rrcSetScellComplete (status : Bool)
  | rrcInSync
  | rrcOutOfSync
  | runTtiTask (tti tti_jump : Nat)
  deriving DecidableEq, Repr

/-- The externally visible state of `ue_stack_lte` relevant to the boundary
adapters: the `running` flag, the dropped-SDU counter, the pcap
configuration and the contents of the four task queues
(`ue_task_queue`, `gw_queue_id`, `cfg_task_queue`, `sync_task_queue`). -/
structure StackState where
  running : Bool
  ul_dropped_sdus : Nat
  pkt_trace : PktTraceArgs
  mainQ : List Task
  gwQ : List Task
  cfgQ : List Task
  syncQ : List Task
  deriving DecidableEq, Repr

/-- A log line emitted by a boundary adapter. -/
inductive LogEvent where
  | infoGwSduDiscarded (lcid : Nat)
  deriving DecidableEq, Repr

/-- `ue_stack_lte::write_sdu` (lines 343-351): try-push the SDU task onto
the data-path queue; on failure log at informational level and increment
`ul_dropped_sdus`.  There is no `running` check.  `pushOk` models whether
the bounded queue accepted the non-blocking `try_push` (the queue
implementation is library code outside `src/`; the spec models every task
queue as a bounded channel whose try-push fails instead of blocking). -/
def write_sdu (st : StackState) (lcid : Nat) (pushOk : Bool) :
    StackState × List LogEvent :=
  if pushOk then
    ({ st with gwQ := st.gwQ ++ [.pdcpWriteSdu lcid] }, [])
  else
    ({ st with ul_dropped_sdus := st.ul_dropped_sdus + 1 },
      [.infoGwSduDiscarded lcid])

/-- A sequence of `write_sdu` calls, each given by its `lcid` and whether
the data-path queue accepted the push. -/
def write_sdu_run (st : StackState) (calls : List (Nat × Bool)) :
    StackState :=
  calls.foldl (fun s c => (write_sdu s c.1 c.2).1) st

/-- `ue_stack_lte::cell_search_complete` (lines 366-369): unconditional
blocking push onto the configuration queue; no `running` check. -/
def cell_search_complete (st : StackState) : StackState :=
  { st with cfgQ := st.cfgQ ++ [.rrcCellSearchComplete] }

/-- `ue_stack_lte::cell_select_complete` (lines 371-374): unconditional
blocking push onto the configuration queue; no `running` check. -/
def cell_select_complete (st : StackState) (status : Bool) : StackState :=
  { st with cfgQ := st.cfgQ ++ [.rrcCellSelectComplete status] }

/-- `ue_stack_lte::set_config_complete` (lines 376-379): unconditional
blocking push onto the configuration queue; no `running` check. -/
def set_config_complete (st : StackState) (status : Bool) : StackState :=
  { st with cfgQ := st.cfgQ ++ [.rrcSetConfigComplete status] }

/-- `ue_stack_lte::set_scell_complete` (lines 381-384): unconditional
blocking push onto the configuration queue; no `running` check. -/
def set_scell_complete (st : StackState) (status : Bool) : StackState :=
  { st with cfgQ := st.cfgQ ++ [.rrcSetScellComplete status] }

/-- `ue_stack_lte::in_sync` (lines 393-396): unconditional blocking push
onto the synchronization queue; no `running` check. -/
def in_sync (st : StackState) : StackState :=
  { st with syncQ := st.syncQ ++ [.rrcInSync] }

/-- `ue_stack_lte::out_of_sync` (lines 398-401): unconditional blocking push
onto the synchronization queue; no `running` check. -/
def out_of_sync (st : StackState) : StackState :=
  { st with syncQ := st.syncQ ++ [.rrcOutOfSync] }

/-- `ue_stack_lte::run_tti` (lines 403-408): push onto the synchronization
queue only when `running`. -/
def run_tti (st : StackState) (tti tti_jump : Nat) : StackState :=
  if st.running then
    { st with syncQ := st.syncQ ++ [.runTtiTask tti tti_jump] }
  else st

/-- `ue_stack_lte::switch_on` (lines 255-261): try-push the attach task onto
the main queue only when `running`; the push result is ignored and the call
returns `true` regardless. -/
def switch_on (st : StackState) (pushOk : Bool) : StackState :=
  if st.running then
    if pushOk then { st with mainQ := st.mainQ ++ [.nasSwitchOn] } else st
  else st

/-- `ue_stack_lte::start_service_request` (lines 296-302): try-push the
service-request task onto the main queue only when `running`; the push
result is ignored and the call returns `true` regardless. -/
def start_service_request (st : StackState) (pushOk : Bool) : StackState :=
  if st.running then
    if pushOk then { st with mainQ := st.mainQ ++ [.nasStartServiceRequest] }
    else st
  else st

/-- The outcome of one `ue_stack_lte::stop` call: the resulting state, the
layer-stop trace executed by the drained shutdown task, whether the shutdown
task was accepted by the non-blocking push, and whether the caller blocked
in `wait_thread_finish`. -/
structure StopOutcome where
  state : StackState
  enqueued : Bool
  waited : Bool
  events : List StopEvent
  deriving DecidableEq, Repr

/-- `ue_stack_lte::stop` (lines 221-227) together with the effect of the
execution thread draining the shutdown task (`stop_impl`).  The result of
`ue_task_queue.try_push` is never checked by the source; `pushOk` models
whether the bounded main queue accepted the push.  When it did, the
execution thread runs `stop_impl` (which flips `running` to `false`) and
exits, and the caller's `wait_thread_finish` returns; when it did not, no
shutdown task exists, no layer is stopped and `running` stays `true`, yet
`stop` still waits on the thread. -/
def stop (st : StackState) (pushOk : Bool) : StopOutcome :=
  if st.running then
    if pushOk then
      { state := { st with running := false }, enqueued := true,
        waited := true, events := stop_impl st.pkt_trace }
    else
      { state := st, enqueued := false, waited := true, events := [] }
  else
    { state := st, enqueued := false, waited := false, events := [] }

/-- One external entry point applied to the stack state, used to express
that `running` is never switched back on. -/
inductive Op where
  | writeSduOp (lcid : Nat) (pushOk : Bool)
  | cellSearchCompleteOp
  | cellSelectCompleteOp (status : Bool)
  | setConfigCompleteOp (status : Bool)
  | setScellCompleteOp (status : Bool)
  | inSyncOp
  | outOfSyncOp
  | runTtiOp (tti tti_jump : Nat)
  | switchOnOp (pushOk : Bool)
  | startServiceRequestOp (pushOk : Bool)
  | stopOp (pushOk : Bool)
  deriving DecidableEq, Repr

/-- Apply one external entry point to the stack state. -/
def step (st : StackState) : Op → StackState
  | .writeSduOp lcid ok => (write_sdu st lcid ok).1
  | .cellSearchCompleteOp => cell_search_complete st
  | .cellSelectCompleteOp b => cell_select_complete st b
  | .setConfigCompleteOp b => set_config_complete st b
  | .setScellCompleteOp b => set_scell_complete st b
  | .inSyncOp => in_sync st
  | .outOfSyncOp => out_of_sync st
  | .runTtiOp t j => run_tti st t j
  | .switchOnOp ok => switch_on st ok
  | .startServiceRequestOp ok => start_service_request st ok
  | .stopOp ok => (stop st ok).state

/-- An all-disabled pcap configuration. -/
def ptNone : PktTraceArgs :=
  { mac_pcap := { enable := false, filename := "" },
    mac_nr_pcap := { enable := false, filename := "" },
    nas_pcap := { enable := false, filename := "" } }

/-- A stopped (not running) stack state with empty queues. -/
def st0 : StackState :=
  { running := false, ul_dropped_sdus := 0, pkt_trace := ptNone,
    mainQ := [], gwQ := [], cfgQ := [], syncQ := [] }

/-- A running stack state with empty queues. -/
def stR : StackState :=
  { running := true, ul_dropped_sdus := 0, pkt_trace := ptNone,
    mainQ := [], gwQ := [], cfgQ := [], syncQ := [] }

/-- A pcap configuration with both MAC traces enabled on the same file. -/
def pt8 : PktTraceArgs :=
  { mac_pcap := { enable := true, filename := "mac.pcap" },
    mac_nr_pcap := { enable := true, filename := "mac.pcap" },
    nas_pcap := { enable := false, filename := "" } }

/-- A pcap configuration with all three traces enabled on distinct files. -/
def ptNasOn : PktTraceArgs :=
  { mac_pcap := { enable := true, filename := "mac.pcap" },
    mac_nr_pcap := { enable := true, filename := "mac_nr.pcap" },
    nas_pcap := { enable := true, filename := "nas.pcap" } }

/-- The gating behaviour of the boundary adapters in a non-running state:
`run_tti`, `switch_on`, `start_service_request` and `stop` are no-ops, while
the data-path, configuration and synchronization adapters enqueue their task
regardless of `running`. -/
def AdapterGatingSpec (st : StackState) (lcid tti tti_jump : Nat)
    (status pushOk : Bool) : Prop :=
  run_tti st tti tti_jump = st
  ∧ switch_on st pushOk = st
  ∧ start_service_request st pushOk = st
  ∧ (stop st pushOk).state = st
  ∧ (write_sdu st lcid true).1.gwQ = st.gwQ ++ [Task.pdcpWriteSdu lcid]
  ∧ (cell_search_complete st).cfgQ = st.cfgQ ++ [Task.rrcCellSearchComplete]
  ∧ (cell_select_complete st status).cfgQ
      = st.cfgQ ++ [Task.rrcCellSelectComplete status]
  ∧ (set_config_complete st status).cfgQ
      = st.cfgQ ++ [Task.rrcSetConfigComplete status]
  ∧ (set_scell_complete st status).cfgQ
      = st.cfgQ ++ [Task.rrcSetScellComplete status]
  ∧ (in_sync st).syncQ = st.syncQ ++ [Task.rrcInSync]
  ∧ (out_of_sync st).syncQ = st.syncQ ++ [Task.rrcOutOfSync]

/-- The (amended) idempotence contract of `stop`: a non-running stack makes
`stop` a no-op (nothing enqueued, no wait); when the shutdown push is
accepted, the stack ends not running, a second `stop` is a no-op equal in
state to the first, and no later entry point ever turns `running` back on. -/
def StopIdempotentSpec (st : StackState) (ok2 : Bool) (ops : List Op) : Prop :=
  (st.running = false →
    stop st ok2
      = { state := st, enqueued := false, waited := false, events := [] })
  ∧ (stop st true).state.running = false
  ∧ stop (stop st true).state ok2
      = { state := (stop st true).state, enqueued := false, waited := false,
          events := [] }
  ∧ (ops.foldl step (stop st true).state).running = false

/-! ### Detach (`ue_stack_lte::switch_off`, lines 263-280) -/

/-- `timeout_ms` of `switch_off`: wait at most 5 s for the detach to be
sent. -/
def timeout_ms : Nat := 5000

/-- The poll loop `while (not rrc.srbs_flushed() && ++cnt <= timeout_ms)
sleep(1ms);` of `switch_off`.  `flushed q` is the result of the `q`-th call
to `rrc.srbs_flushed()`; `r` is the number of sleeps still allowed
(`timeout_ms - cnt`).  Returns the number of sleeps performed and the index
of the next unconsumed `srbs_flushed` query.  With `r = 0` the guard still
queries `srbs_flushed` once but exits either way (either the flush arrived
or `++cnt` exceeds `timeout_ms`) without sleeping. -/
def detachPoll (flushed : Nat → Bool) : Nat → Nat → Nat × Nat
  | q, 0 => (0, q + 1)
  | q, r + 1 =>
    if flushed q then (0, q + 1)
    else
      let p := detachPoll flushed (q + 1) r
      (p.1 + 1, p.2)

/-- `ue_stack_lte::switch_off` after `nas.switch_off()`: run the bounded
poll loop, then re-query `rrc.srbs_flushed()`; if it is still false, log a
warning and report failure.  Returns `(detach_sent, number of sleeps)`. -/
def switch_off (flushed : Nat → Bool) : Bool × Nat :=
  (flushed (detachPoll flushed 0 timeout_ms).2,
    (detachPoll flushed 0 timeout_ms).1)

/-- The bounded-detach contract of `switch_off`: if flush confirmation
never arrives the loop sleeps exactly `timeout_ms` times and the call
reports failure; if it is already (and stably) confirmed the loop performs
no sleep and the call reports success; and in any case the number of poll
sleeps never exceeds `timeout_ms`. -/
def SwitchOffSpec (flushed : Nat → Bool) : Prop :=
  ((∀ q, flushed q = false) → switch_off flushed = (false, timeout_ms))
  ∧ ((∀ q, flushed q = true) → switch_off flushed = (true, 0))
  ∧ (switch_off flushed).2 ≤ timeout_ms

/-! ## Theorems -/

theorem ttiLoop_filter_tic (tti tti_jump : Nat) (l : List Nat) :
    ((l.flatMap (ttiLoopBody tti tti_jump)).filter isTic).length = l.length := by
  induction l with
  | nil => rfl
  | cons x xs ih =>
    simp [List.flatMap_cons, List.filter_append, ih, ttiLoopBody, isTic]

theorem ttiLoop_filterMap_mac (tti tti_jump : Nat) (l : List Nat) :
    (l.flatMap (ttiLoopBody tti tti_jump)).filterMap macArg
      = l.map (fun i => TTI_SUB tti (tti_jump - i - 1)) := by
  induction l with
  | nil => rfl
  | cons x xs ih =>
    simp [List.flatMap_cons, List.filterMap_append, ih, ttiLoopBody, macArg]

theorem ttiLoop_filterMap_macNr (tti tti_jump : Nat) (l : List Nat) :
    (l.flatMap (ttiLoopBody tti tti_jump)).filterMap macNrArg
      = l.map (fun i => TTI_SUB tti (tti_jump - i - 1)) := by
  induction l with
  | nil => rfl
  | cons x xs ih =>
    simp [List.flatMap_cons, List.filterMap_append, ih, ttiLoopBody, macNrArg]

theorem ttiLoop_length (tti tti_jump : Nat) (l : List Nat) :
    (l.flatMap (ttiLoopBody tti tti_jump)).length = 3 * l.length := by
  induction l with
  | nil => rfl
  | cons x xs ih =>
    simp [List.flatMap_cons, ih, ttiLoopBody]
    omega

/-- In the valid TTI domain the wrapped subtraction is ordinary subtraction
followed by one reduction modulo the TTI space. -/
theorem TTI_SUB_small (a b : Nat) (ha : a < 10240) (hb : b ≤ 10240) :
    TTI_SUB a b = (a + 10240 - b) % 10240 := by
  unfold TTI_SUB U32
  omega

/-- The per-subframe loop never invokes `rrc_nr.run_tti`. -/
theorem rrcNr_not_mem_loop (tti tti_jump x : Nat) (l : List Nat) :
    TtiEvent.rrcNrRunTti x ∉ l.flatMap (ttiLoopBody tti tti_jump) := by
  induction l with
  | nil => simp
  | cons a as ih =>
    intro h
    rw [List.flatMap_cons, List.mem_append] at h
    rcases h with h | h
    · simp [ttiLoopBody] at h
    · exact ih h

/-- Claim C1: for `run_tti_impl(tti = T, tti_jump = J)` with `J ≥ 1` (and
`T`, `J` within the wrapping TTI space of 10240 subframes), the per-subframe
loop runs exactly `J` times, invoking `mac.run_tti` and `mac_nr.run_tti`
with the strictly increasing (in the wrapping space) subframes
`T-J+1, …, T` computed via `TTI_SUB` and advancing the timer registry
(`task_sched.tic`) once per iteration, after which `rrc`, `rrc_nr` and
`nas` each run exactly once, `rrc_nr.run_tti` receiving only the final
value `T`. -/
theorem run_tti_lockstep (T J : Nat) (hJ1 : 1 ≤ J) (hT : T < 10240)
    (hJ : J ≤ 10240) : TickLockstepSpec T J := by
  have hmac : macSubframes T J
      = (List.range J).map (fun i => TTI_SUB T (J - i - 1)) := by
    unfold macSubframes run_tti_impl ttiLoop
    rw [List.filterMap_append, ttiLoop_filterMap_mac]
    simp [macArg]
  have hmacnr : macNrSubframes T J = macSubframes T J := by
    rw [hmac]
    unfold macNrSubframes run_tti_impl ttiLoop
    rw [List.filterMap_append, ttiLoop_filterMap_macNr]
    simp [macNrArg]
  have hgetD : ∀ i, i < J →
      (macSubframes T J).getD i 0 = (T + 10240 - (J - 1 - i)) % 10240 := by
    intro i hi
    rw [hmac, List.getD_eq_getElem?_getD, List.getElem?_map,
      List.getElem?_range hi]
    simp only [Option.map_some', Option.getD_some]
    rw [TTI_SUB_small T (J - i - 1) hT (by omega)]
    omega
  have hlen : (ttiLoop T J).length = 3 * J := by
    unfold ttiLoop
    rw [ttiLoop_length]
    simp
  refine ⟨hmac, hmacnr, ?_, hgetD, ?_, ?_, ?_, ?_, ?_⟩
  · unfold run_tti_impl ttiLoop
    rw [List.filter_append, List.length_append, ttiLoop_filter_tic]
    simp [isTic]
  · intro i hi
    rw [hgetD i (by omega), hgetD (i + 1) hi]
    omega
  · intro i j hi hj hne
    rw [hgetD i hi, hgetD j hj]
    omega
  · rw [hgetD (J - 1) (by omega)]
    omega
  · unfold run_tti_impl
    rw [← hlen, List.drop_left]
  · intro x hx
    unfold run_tti_impl ttiLoop at hx
    rw [List.mem_append] at hx
    rcases hx with hx | hx
    · exact absurd hx (rrcNr_not_mem_loop T J x (List.range J))
    · simp at hx
      exact hx

/-- Claim C1 witness: the lockstep contract evaluated at `tti = 5`,
`tti_jump = 3`. -/
theorem run_tti_lockstep_witness :
    1 ≤ 3 ∧ 5 < 10240 ∧ 3 ≤ 10240 ∧ TickLockstepSpec 5 3 :=
  ⟨by decide, by decide, by decide,
    run_tti_lockstep 5 3 (by decide) (by decide) (by decide)⟩

/-- A run of `write_sdu` calls adds one drop per rejected push. -/
theorem write_sdu_run_drops (calls : List (Nat × Bool)) (st : StackState) :
    (write_sdu_run st calls).ul_dropped_sdus
      = st.ul_dropped_sdus + (calls.filter (fun c => !c.2)).length := by
  induction calls generalizing st with
  | nil => simp [write_sdu_run]
  | cons c cs ih =>
    have h1 : write_sdu_run st (c :: cs)
        = write_sdu_run (write_sdu st c.1 c.2).1 cs := rfl
    cases hb : c.2 with
    | false =>
      rw [h1, ih]
      simp [write_sdu, hb]
      omega
    | true =>
      rw [h1, ih]
      simp [write_sdu, hb]

/-- Claim C3: `write_sdu` increments `ul_dropped_sdus` exactly once and logs
one informational line when the data-path `try_push` fails, leaves the
counter unchanged when it succeeds, never decreases the counter, and over
any sequence of calls the counter grows by exactly the number of rejected
pushes. -/
theorem write_sdu_drop_accounting (st : StackState) (lcid : Nat)
    (pushOk : Bool) (calls : List (Nat × Bool)) :
    (write_sdu st lcid false).1.ul_dropped_sdus = st.ul_dropped_sdus + 1
    ∧ (write_sdu st lcid false).2 = [LogEvent.infoGwSduDiscarded lcid]
    ∧ (write_sdu st lcid true).1.ul_dropped_sdus = st.ul_dropped_sdus
    ∧ (write_sdu st lcid true).2 = []
    ∧ st.ul_dropped_sdus ≤ (write_sdu st lcid pushOk).1.ul_dropped_sdus
    ∧ (write_sdu_run st calls).ul_dropped_sdus
        = st.ul_dropped_sdus + (calls.filter (fun c => !c.2)).length := by
  refine ⟨rfl, rfl, rfl, rfl, ?_, write_sdu_run_drops calls st⟩
  cases pushOk <;> simp [write_sdu]

/-- Claim C2 counterexample: with `running = false` the data-path,
configuration and synchronization adapters still enqueue onto their queues,
so they are not the silent no-ops the claim demands. -/
theorem adapters_not_gated_cex :
    st0.running = false
    ∧ (cell_search_complete st0).cfgQ ≠ st0.cfgQ
    ∧ (write_sdu st0 1 true).1.gwQ ≠ st0.gwQ
    ∧ (in_sync st0).syncQ ≠ st0.syncQ := by
  decide

/-- Claim C2 (amended): of the boundary adapters, only `run_tti`,
`switch_on`, `start_service_request` (and `stop`) check `running` and are
silent no-ops when the stack is not running; `write_sdu`,
`cell_search_complete`, `cell_select_complete`, `set_config_complete`,
`set_scell_complete`, `in_sync` and `out_of_sync` enqueue their task
unconditionally. -/
theorem adapters_gating (st : StackState) (lcid tti tti_jump : Nat)
    (status pushOk : Bool) (h : st.running = false) :
    AdapterGatingSpec st lcid tti tti_jump status pushOk := by
  refine ⟨?_, ?_, ?_, ?_, rfl, rfl, rfl, rfl, rfl, rfl, rfl⟩ <;>
    simp [run_tti, switch_on, start_service_request, stop, h]

/-- Claim C2 witness: the amended gating contract at the concrete stopped
state `st0`. -/
theorem adapters_gating_witness :
    st0.running = false ∧ AdapterGatingSpec st0 7 11 2 true true :=
  ⟨rfl, adapters_gating st0 7 11 2 true true rfl⟩

/-- Claim C9: in a running state whose main queue rejects the push,
`stop()` enqueues no shutdown task (the `try_push` result is never
checked), stops no layer, leaves `running = true`, and still blocks in
`wait_thread_finish`. -/
theorem stop_push_failure_unchecked :
    stR.running = true
    ∧ (stop stR false).enqueued = false
    ∧ (stop stR false).state = stR
    ∧ (stop stR false).events = []
    ∧ (stop stR false).waited = true
    ∧ (stop stR false).state.running = true := by
  decide

/-- Claim C5 counterexample: in a running state whose main-queue push fails,
`stop()` — even called twice — leaves `running = true`, so the claimed
unconditional post-state Stopped does not hold. -/
theorem stop_idempotent_cex :
    stR.running = true
    ∧ (stop (stop stR false).state false).state.running = true := by
  decide

/-- No external entry point ever sets `running` back to `true`. -/
theorem step_not_running (st : StackState) (op : Op)
    (h : st.running = false) : (step st op).running = false := by
  cases op with
  | writeSduOp lcid ok => cases ok <;> simp [step, write_sdu, h]
  | cellSearchCompleteOp => simp [step, cell_search_complete, h]
  | cellSelectCompleteOp b => simp [step, cell_select_complete, h]
  | setConfigCompleteOp b => simp [step, set_config_complete, h]
  | setScellCompleteOp b => simp [step, set_scell_complete, h]
  | inSyncOp => simp [step, in_sync, h]
  | outOfSyncOp => simp [step, out_of_sync, h]
  | runTtiOp t j => simp [step, run_tti, h]
  | switchOnOp ok => simp [step, switch_on, h]
  | startServiceRequestOp ok => simp [step, start_service_request, h]
  | stopOp ok => simp [step, stop, h]

/-- Once `running` is `false`, any sequence of entry points keeps it
`false`. -/
theorem steps_not_running (ops : List Op) (st : StackState)
    (h : st.running = false) : (ops.foldl step st).running = false := by
  induction ops generalizing st with
  | nil => simpa using h
  | cons o os ih => exact ih (step st o) (step_not_running st o h)

/-- Claim C5 (amended): `stop()` on a non-running stack is a no-op (nothing
enqueued, no wait, no layer stopped); provided the non-blocking enqueue of
the shutdown task succeeds, `stop()` ends with `running = false`, a second
`stop()` is a no-op equivalent to the first, and no subsequent entry point
returns the stack to running. -/
theorem stop_idempotent (st : StackState) (ok2 : Bool) (ops : List Op) :
    StopIdempotentSpec st ok2 ops := by
  have hnoop : ∀ (s : StackState) (ok : Bool), s.running = false →
      stop s ok
        = { state := s, enqueued := false, waited := false, events := [] } := by
    intro s ok h
    simp [stop, h]
  have h2 : (stop st true).state.running = false := by
    cases h : st.running <;> simp [stop, h]
  exact ⟨hnoop st ok2, h2, hnoop (stop st true).state ok2 h2,
    steps_not_running ops _ h2⟩

/-- Claim C5 witness: the amended idempotence contract at the concrete
running state `stR`. -/
theorem stop_idempotent_witness :
    StopIdempotentSpec stR true [Op.inSyncOp, Op.runTtiOp 1 1] :=
  stop_idempotent stR true [Op.inSyncOp, Op.runTtiOp 1 1]

/-- Claim C4: the shutdown task first flips `running` to `false`, then
stops the layers in exactly the order usim, nas, rrc, rlc, pdcp, mac,
closes precisely the pcap writers that are enabled, and finally stops the
task scheduler and the background worker pool; the trace run by a
successful `stop()` on a running stack is exactly `stop_impl`. -/
theorem stop_impl_order (pt : PktTraceArgs) :
    (stop_impl pt).take 7
      = [StopEvent.setRunningFalse, StopEvent.stopLayer Layer.usim,
         StopEvent.stopLayer Layer.nas, StopEvent.stopLayer Layer.rrc,
         StopEvent.stopLayer Layer.rlc, StopEvent.stopLayer Layer.pdcp,
         StopEvent.stopLayer Layer.mac]
    ∧ (stop_impl pt).filterMap stoppedLayer
        = [Layer.usim, Layer.nas, Layer.rrc, Layer.rlc, Layer.pdcp,
           Layer.mac]
    ∧ (StopEvent.closePcap PcapSink.mac_pcap ∈ stop_impl pt
        ↔ pt.mac_pcap.enable = true)
    ∧ (StopEvent.closePcap PcapSink.mac_nr_pcap ∈ stop_impl pt
        ↔ pt.mac_nr_pcap.enable = true)
    ∧ (StopEvent.closePcap PcapSink.nas_pcap ∈ stop_impl pt
        ↔ pt.nas_pcap.enable = true)
    ∧ (stop_impl pt).drop ((stop_impl pt).length - 2)
        = [StopEvent.taskSchedStop, StopEvent.backgroundWorkersStop]
    ∧ (∀ st : StackState, st.running = true →
        (stop st true).events = stop_impl st.pkt_trace) := by
  cases h1 : pt.mac_pcap.enable <;> cases h2 : pt.mac_nr_pcap.enable <;>
    cases h3 : pt.nas_pcap.enable <;>
    exact ⟨by simp [stop_impl, h1, h2, h3],
      by simp [stop_impl, stoppedLayer, h1, h2, h3],
      by simp [stop_impl, h1, h2, h3],
      by simp [stop_impl, h1, h2, h3],
      by simp [stop_impl, h1, h2, h3],
      by simp [stop_impl, h1, h2, h3],
      fun st h => by simp [stop, h]⟩

/-- Claim C4 witness: the shutdown-order contract evaluated at the
all-disabled pcap configuration and at the concrete running state `stR`. -/
theorem stop_impl_order_witness :
    (stop_impl ptNone).filterMap stoppedLayer
      = [Layer.usim, Layer.nas, Layer.rrc, Layer.rlc, Layer.pdcp, Layer.mac]
    ∧ (stop stR true).events = stop_impl stR.pkt_trace :=
  ⟨(stop_impl_order ptNone).2.1,
    (stop_impl_order ptNone).2.2.2.2.2.2 stR rfl⟩

/-- If the flush confirmation never arrives, the poll loop sleeps once per
remaining budget unit and consumes one query per entry. -/
theorem detachPoll_never (flushed : Nat → Bool)
    (h : ∀ q, flushed q = false) :
    ∀ r q, detachPoll flushed q r = (r, q + r + 1) := by
  intro r
  induction r with
  | zero => intro q; rfl
  | succ n ih =>
    intro q
    simp [detachPoll, h q, ih (q + 1), Prod.ext_iff]
    all_goals omega

/-- The poll loop never sleeps more often than its remaining budget. -/
theorem detachPoll_le (flushed : Nat → Bool) :
    ∀ r q, (detachPoll flushed q r).1 ≤ r := by
  intro r
  induction r with
  | zero => intro q; simp [detachPoll]
  | succ n ih =>
    intro q
    cases hfq : flushed q with
    | true => simp [detachPoll, hfq]
    | false =>
      simp [detachPoll, hfq]
      have := ih (q + 1)
      omega

/-- Claim C6: if `rrc.srbs_flushed()` never becomes true, the detach poll
loop of `switch_off` terminates after exactly `timeout_ms = 5000` one-ms
sleeps and the call returns `false`; if the flush is already confirmed the
loop performs no sleep and the call returns `true`; the sleep count never
exceeds `timeout_ms`. -/
theorem switch_off_bounded (flushed : Nat → Bool) : SwitchOffSpec flushed := by
  refine ⟨?_, ?_, ?_⟩
  · intro h
    unfold switch_off
    rw [detachPoll_never flushed h timeout_ms 0]
    simp [h]
  · intro h
    have h5 : detachPoll flushed 0 timeout_ms = (0, 1) := by
      rw [show timeout_ms = 4999 + 1 from rfl]
      simp [detachPoll, h 0]
    unfold switch_off
    rw [h5]
    simp [h 1]
  · exact detachPoll_le flushed timeout_ms 0

/-- Claim C6 witness: the bounded-detach contract at the two constant
confirmation oracles. -/
theorem switch_off_bounded_witness :
    switch_off (fun _ => false) = (false, timeout_ms)
    ∧ switch_off (fun _ => true) = (true, 0) :=
  ⟨(switch_off_bounded (fun _ => false)).1 (fun _ => rfl),
    (switch_off_bounded (fun _ => true)).2.1 (fun _ => rfl)⟩

/-- The pcap setup enqueues no layer-initialization event. -/
theorem layerInit_not_mem_setupPcap (pt : PktTraceArgs)
    (openOk : PcapSink → Bool) (l : Layer) :
    InitEvent.layerInit l ∉ setupPcap pt openOk := by
  unfold setupPcap
  split_ifs <;> simp

/-- The pcap setup never sets `running`. -/
theorem setRunningTrue_not_mem_setupPcap (pt : PktTraceArgs)
    (openOk : PcapSink → Bool) :
    InitEvent.setRunningTrue ∉ setupPcap pt openOk := by
  unfold setupPcap
  split_ifs <;> simp

/-- The pcap setup never starts the stack thread. -/
theorem startThread_not_mem_setupPcap (pt : PktTraceArgs)
    (openOk : PcapSink → Bool) :
    InitEvent.startThread ∉ setupPcap pt openOk := by
  unfold setupPcap
  split_ifs <;> simp

/-- Claim C7: when `usim->init` fails, `init` returns `SRSRAN_ERROR`
immediately: `running` is never set, the stack thread is never started, and
no protocol layer is initialized. -/
theorem init_usim_failure (pt0 : PktTraceArgs) (pcap_list : List String)
    (openOk : PcapSink → Bool) :
    (init pt0 pcap_list openOk false).result = SRSRAN_ERROR
    ∧ (init pt0 pcap_list openOk false).running = false
    ∧ (∀ l, InitEvent.layerInit l ∉ (init pt0 pcap_list openOk false).events)
    ∧ InitEvent.setRunningTrue ∉ (init pt0 pcap_list openOk false).events
    ∧ InitEvent.startThread ∉ (init pt0 pcap_list openOk false).events := by
  have hev : (init pt0 pcap_list openOk false).events
      = setupPcap (parsePcapList pt0 pcap_list) openOk
        ++ [InitEvent.usimInit] := rfl
  refine ⟨rfl, rfl, ?_, ?_, ?_⟩
  · intro l hm
    rw [hev, List.mem_append] at hm
    rcases hm with hm | hm
    · exact layerInit_not_mem_setupPcap _ _ l hm
    · simp at hm
  · intro hm
    rw [hev, List.mem_append] at hm
    rcases hm with hm | hm
    · exact setRunningTrue_not_mem_setupPcap _ _ hm
    · simp at hm
  · intro hm
    rw [hev, List.mem_append] at hm
    rcases hm with hm | hm
    · exact startThread_not_mem_setupPcap _ _ hm
    · simp at hm

/-- When the shared-file condition of the trace setup is false, each
enabled MAC-family trace opens and uses its own writer. -/
theorem separate_of_cond_false (pt : PktTraceArgs) (openOk : PcapSink → Bool)
    (h : (pt.mac_pcap.enable && pt.mac_nr_pcap.enable
      && (pt.mac_pcap.filename == pt.mac_nr_pcap.filename)) = false) :
    SeparateMacSinkSpec pt openOk := by
  unfold SeparateMacSinkSpec macOpens macStarts setupPcap
  rw [h]
  cases h1 : pt.mac_pcap.enable <;> cases h2 : pt.mac_nr_pcap.enable <;>
    cases h4 : openOk PcapSink.mac_pcap <;>
    cases h5 : openOk PcapSink.mac_nr_pcap <;>
    cases h6 : pt.nas_pcap.enable <;> cases h7 : openOk PcapSink.nas_pcap <;>
    simp [h1, h2, h4, h5, h6, h7, macOpenOf, macStartOf]

/-- Claim C8: when the MAC and MAC-NR traces are both enabled with the same
filename, exactly one MAC-family pcap writer (`mac_pcap`) is opened and
both `mac.start_pcap` and `mac_nr.start_pcap` are pointed at it; when the
filenames differ, or only one of the two traces is enabled, each enabled
trace opens its own independent writer. -/
theorem pcap_sink_sharing (pt : PktTraceArgs) (openOk : PcapSink → Bool) :
    (pt.mac_pcap.enable = true → pt.mac_nr_pcap.enable = true →
      pt.mac_pcap.filename = pt.mac_nr_pcap.filename →
      openOk PcapSink.mac_pcap = true → SharedMacSinkSpec pt openOk)
    ∧ (pt.mac_pcap.filename ≠ pt.mac_nr_pcap.filename →
        SeparateMacSinkSpec pt openOk)
    ∧ (pt.mac_nr_pcap.enable = false → SeparateMacSinkSpec pt openOk)
    ∧ (pt.mac_pcap.enable = false → SeparateMacSinkSpec pt openOk) := by
  refine ⟨?_, ?_, ?_, ?_⟩
  · intro h1 h2 h3 h4
    unfold SharedMacSinkSpec macOpens macStarts setupPcap
    cases h6 : pt.nas_pcap.enable <;> cases h7 : openOk PcapSink.nas_pcap <;>
      simp [h1, h2, h3, h4, h6, h7, macOpenOf, macStartOf]
  · intro h3
    refine separate_of_cond_false pt openOk ?_
    rw [beq_eq_false_iff_ne.mpr h3]
    simp
  · intro h2
    refine separate_of_cond_false pt openOk ?_
    rw [h2]
    simp
  · intro h1
    refine separate_of_cond_false pt openOk ?_
    rw [h1]
    simp

/-- Claim C8 witness: the shared-sink contract at the concrete
configuration `pt8` (both MAC traces on `"mac.pcap"`). -/
theorem pcap_sink_sharing_witness : SharedMacSinkSpec pt8 (fun _ => true) :=
  (pcap_sink_sharing pt8 (fun _ => true)).1 rfl rfl rfl rfl

/-- No single trace option ever clears the NAS trace flag. -/
theorem applyPcapOption_nas_enable (pt : PktTraceArgs) (s : String)
    (h : pt.nas_pcap.enable = true) :
    (applyPcapOption pt s).nas_pcap.enable = true := by
  simp only [applyPcapOption]
  split_ifs <;> simp [h]

/-- No list of trace options ever clears the NAS trace flag. -/
theorem foldl_applyPcapOption_nas (l : List String) :
    ∀ pt : PktTraceArgs, pt.nas_pcap.enable = true →
      (l.foldl applyPcapOption pt).nas_pcap.enable = true := by
  induction l with
  | nil =>
    intro pt h
    simpa using h
  | cons s ss ih =>
    intro pt h
    exact ih (applyPcapOption pt s) (applyPcapOption_nas_enable pt s h)

/-- The whole pcap-list parse preserves an enabled NAS trace flag. -/
theorem parsePcapList_nas_enable (pt : PktTraceArgs) (l : List String)
    (h : pt.nas_pcap.enable = true) :
    (parsePcapList pt l).nas_pcap.enable = true := by
  simp only [parsePcapList]
  apply foldl_applyPcapOption_nas
  split_ifs <;> simpa using h

/-- The empty-list default of the parse clears only the two MAC flags. -/
theorem parsePcapList_nil (pt : PktTraceArgs) :
    parsePcapList pt []
      = { pt with mac_pcap := { pt.mac_pcap with enable := false },
                  mac_nr_pcap := { pt.mac_nr_pcap with enable := false } } :=
  rfl

/-- Parsing the one-token list `["none"]` just applies the `"none"`
option. -/
theorem parsePcapList_none (pt : PktTraceArgs) :
    parsePcapList pt ["none"] = applyPcapOption pt "none" :=
  rfl

/-- The `"none"` option clears only the two MAC flags. -/
theorem applyPcapOption_none (pt : PktTraceArgs) :
    applyPcapOption pt "none"
      = { pt with mac_pcap := { pt.mac_pcap with enable := false },
                  mac_nr_pcap := { pt.mac_nr_pcap with enable := false } } := by
  have hs : stripSpaces "none" = "none" := by decide
  simp only [applyPcapOption]
  rw [hs]
  simp

/-- Claim C10: the `"none"` option and the empty-list default reset only
the MAC trace flags (the source assigns `mac_nr_pcap.enable = false` twice
and never touches `nas_pcap.enable`), so a NAS trace flag that starts out
`true` survives parsing an empty or `"none"`-only enable list and the NAS
pcap sink is still opened. -/
theorem pcap_parse_nas_untouched (pt : PktTraceArgs)
    (openOk : PcapSink → Bool) (h : pt.nas_pcap.enable = true) :
    NasTraceSurvivesSpec pt openOk := by
  refine ⟨fun l => parsePcapList_nas_enable pt l h, ?_, ?_, ?_, ?_, ?_, ?_⟩
  · rw [parsePcapList_nil]
  · rw [parsePcapList_nil]
  · rw [parsePcapList_none, applyPcapOption_none]
  · rw [parsePcapList_none, applyPcapOption_none]
  · rw [parsePcapList_nil]
    unfold setupPcap
    apply List.mem_append_right
    simp [h]
  · rw [parsePcapList_none, applyPcapOption_none]
    unfold setupPcap
    apply List.mem_append_right
    simp [h]

/-- Claim C10 witness: the NAS-trace-survives contract at the concrete
configuration `ptNasOn`. -/
theorem pcap_parse_nas_untouched_witness :
    ptNasOn.nas_pcap.enable = true
    ∧ NasTraceSurvivesSpec ptNasOn (fun _ => true) :=
  ⟨rfl, pcap_parse_nas_untouched ptNasOn (fun _ => true) rfl⟩

end UeStackLte
